import Mathlib

/-!
Verification of the DNS-SD lookup helper (`DnssdLookupHelper`).

The source is a thin facade over the platform device-enumeration API:
it maps platform property bags to `IDnssdServiceInstance` records
(`getDeviceFromProperties`), runs a one-shot enumeration
(`findAllDevicesAsync`), and runs a watcher session with a
deduplication map (`startListeningForDevicesAsync`, `handleDeviceAdded`,
`handleDeviceUpdated`, `stopListeningForDevices`).

The embedding below translates that code directly:
* the JavaScript regular expression used to classify IPv4 addresses is
  embedded as a regex AST (`Re`, star-free: the literal has no Kleene
  star) together with a backtracking matcher `matchRe` with the same
  ordered-alternation, greedy-option and word-boundary semantics;
* the property bag is a record of the six well-known keys the code
  queries (`hasKey`/`lookup` on exactly these keys);
* the watcher session is a state (`WatcherState`) plus a step function
  over platform events (`processEvent`); a stopped watcher raises no
  events, which is the platform contract of `DeviceWatcher.stop`.
-/

/-- JavaScript word character (for the regex metacharacter for a word
boundary): letters, digits and underscore. -/
def isWordChar (c : Char) : Bool :=
  c.isAlphanum || c == '_'

/-- Word-boundary test at a position given the previously consumed
character (`none` at the start of the string) and the remaining input. -/
def atWordBoundary (prev : Option Char) (s : List Char) : Bool :=
  let l := match prev with
    | some c => isWordChar c
    | none => false
  let r := match s with
    | c :: _ => isWordChar c
    | [] => false
  l != r

/-- Star-free regular-expression AST: exactly the constructs appearing in
the IPv4 literal of the source (character classes, concatenation, ordered
alternation, greedy option, word boundary). -/
inductive Re where
  | eps : Re
  | cls : (Char → Bool) → Re
  | seq : Re → Re → Re
  | alt : Re → Re → Re
  | opt : Re → Re
  | wb : Re

/-- Backtracking matcher in continuation-passing style, with JavaScript
semantics: alternation tries the left branch first, `opt` is greedy
(tries to consume first), and the continuation receives the previously
consumed character (for word-boundary tests) and the remaining input. -/
def matchRe : Re → Option Char → List Char → (Option Char → List Char → Bool) → Bool
  | .eps, prev, s, k => k prev s
  | .cls p, _, s, k =>
    match s with
    | [] => false
    | c :: rest => p c && k (some c) rest
  | .seq a b, prev, s, k =>
    matchRe a prev s (fun prev2 s2 => matchRe b prev2 s2 k)
  | .alt a b, prev, s, k => matchRe a prev s k || matchRe b prev s k
  | .opt a, prev, s, k => matchRe a prev s k || k prev s
  | .wb, prev, s, k => atWordBoundary prev s && k prev s

/-- The regex metacharacter for a digit: the class 0-9. -/
def reDigit : Re := .cls (fun c => '0' ≤ c && c ≤ '9')

/-- The branch matching 25 followed by the class 0-5 in each octet group
of the IPv4 literal. -/
def re25x : Re :=
  .seq (.cls (fun c => c == '2'))
    (.seq (.cls (fun c => c == '5')) (.cls (fun c => '0' ≤ c && c ≤ '5')))

/-- The inner group of the IPv4 literal: four ordered alternatives — 2
followed by the class 0-4, 1 followed by a digit, the class 1-9, or
empty. -/
def reInner : Re :=
  .alt (.seq (.cls (fun c => c == '2')) (.cls (fun c => '0' ≤ c && c ≤ '4')))
    (.alt (.seq (.cls (fun c => c == '1')) reDigit)
      (.alt (.cls (fun c => '1' ≤ c && c ≤ '9')) .eps))

/-- One octet of the IPv4 literal: the 25x branch, or the inner group
followed by a digit. -/
def reOctet : Re := .alt re25x (.seq reInner reDigit)

/-- One repeated group of the IPv4 literal: an octet, an optional dot,
and a word boundary. -/
def reGroup : Re := .seq reOctet (.seq (.opt (.cls (fun c => c == '.'))) .wb)

/-- The full anchored IPv4 pattern of the source: the group repeated
exactly four times. -/
def ipv4Re : Re := .seq reGroup (.seq reGroup (.seq reGroup reGroup))

/-- `ipv4Pattern.test(s)` of the source: the anchored pattern must match
the whole string (start anchor = matching from position 0 with no
previous character; end anchor = empty remainder). -/
def ipv4PatternTest (s : String) : Bool :=
  matchRe ipv4Re none s.toList (fun _ rest => rest.isEmpty)

/-- The property bag handed to `getDeviceFromProperties`: an
`IMapView<string, any>` restricted to the six well-known keys the code
queries via `hasKey`/`lookup`; a `none` field is an absent key. -/
structure PropertyBag where
  hostName : Option String := none
  serviceName : Option String := none
  instanceName : Option String := none
  ipAddresses : Option (List String) := none
  portNumber : Option Nat := none
  textAttributes : Option String := none

/-- `Partial<IDnssdServiceInstance>`: the output record, every field
optional and initially unset. -/
structure ServiceInstance where
  hostName : Option String := none
  serviceName : Option String := none
  instanceName : Option String := none
  ipAddresses : Option (List String) := none
  ipv4Address : Option String := none
  ipv6Address : Option String := none
  portNumber : Option Nat := none
  textAttributes : Option String := none
deriving DecidableEq

/-- The branch of `getDeviceFromProperties` for the host-name key. -/
def applyHostName (bag : PropertyBag) (si : ServiceInstance) : ServiceInstance :=
  match bag.hostName with
  | some v => { si with hostName := some v }
  | none => si

/-- The branch of `getDeviceFromProperties` for the service-name key. -/
def applyServiceName (bag : PropertyBag) (si : ServiceInstance) : ServiceInstance :=
  match bag.serviceName with
  | some v => { si with serviceName := some v }
  | none => si

/-- The branch of `getDeviceFromProperties` for the instance-name key. -/
def applyInstanceName (bag : PropertyBag) (si : ServiceInstance) : ServiceInstance :=
  match bag.instanceName with
  | some v => { si with instanceName := some v }
  | none => si

/-- The branch of `getDeviceFromProperties` for the IP-address key: set
`ipAddresses` to the array; if the array is non-empty, test entry 0
against the IPv4 pattern and assign it to `ipv4Address` on a match and
to `ipv6Address` otherwise; if a second entry exists, assign it to
`ipv6Address` unconditionally. -/
def applyIpAddress (bag : PropertyBag) (si : ServiceInstance) : ServiceInstance :=
  match bag.ipAddresses with
  | none => si
  | some ipAddressesArray =>
    let si1 := { si with ipAddresses := some ipAddressesArray }
    let si2 := match ipAddressesArray with
      | [] => si1
      | a0 :: _ =>
        if ipv4PatternTest a0 then { si1 with ipv4Address := some a0 }
        else { si1 with ipv6Address := some a0 }
    match ipAddressesArray with
    | _ :: a1 :: _ => { si2 with ipv6Address := some a1 }
    | _ => si2

/-- The branch of `getDeviceFromProperties` for the port-number key. -/
def applyPortNumber (bag : PropertyBag) (si : ServiceInstance) : ServiceInstance :=
  match bag.portNumber with
  | some v => { si with portNumber := some v }
  | none => si

/-- The branch of `getDeviceFromProperties` for the text-attributes key. -/
def applyTextAttributes (bag : PropertyBag) (si : ServiceInstance) : ServiceInstance :=
  match bag.textAttributes with
  | some v => { si with textAttributes := some v }
  | none => si

/-- `getDeviceFromProperties`: iterate the six property keys in their
declared order (host name, service name, instance name, IP addresses,
port number, text attributes), copying each present value into the
record starting from the empty `Partial` record. -/
def getDeviceFromProperties (properties : PropertyBag) : ServiceInstance :=
  applyTextAttributes properties
    (applyPortNumber properties
      (applyIpAddress properties
        (applyInstanceName properties
          (applyServiceName properties
            (applyHostName properties {})))))

/-- One-shot enumeration, `findAllDevicesAsync`: the platform call either
throws (the `catch` branch logs and falls through to `return services`,
still the initial empty array) or returns the property bags of the
enumerated devices, each mapped through `getDeviceFromProperties`. -/
def findAllDevicesAsync (platformResult : Except String (List PropertyBag)) :
    List ServiceInstance :=
  match platformResult with
  | .error _ => []
  | .ok comDevices => comDevices.map (fun p => getDeviceFromProperties p)

/-- The settling delay awaited before reading a device's properties. -/
def DEVICE_INFORMATION_PARSING_DELAY : Nat := 500

/-- A platform device notification: the opaque device identifier and the
property bag read (after the settling delay) from the device. -/
structure DeviceNotification where
  id : String
  properties : PropertyBag

/-- The mutable helper state: whether `DeviceWatcher` is non-null and the
contents of `discoveredDevicesMap`, as an insertion-ordered association
list (JavaScript objects enumerate string keys in insertion order, so
`Object.values` returns values in insertion order). -/
structure WatcherState where
  watcherActive : Bool
  discoveredDevicesMap : List (String × ServiceInstance)

/-- `this.discoveredDevicesMap[id]`: lookup by device identifier. -/
def lookupDevice (m : List (String × ServiceInstance)) (id : String) :
    Option ServiceInstance :=
  (m.find? (fun p => p.1 == id)).map Prod.snd

/-- Number of entries of the deduplication map carrying a given
identifier. -/
def countId (m : List (String × ServiceInstance)) (id : String) : Nat :=
  (m.filter (fun p => p.1 == id)).length

/-- `handleDeviceAdded`: after the settling delay, if the device
identifier is not yet in the map, build the record from the properties,
insert it, and invoke the callback with `Object.values` of the map;
otherwise do nothing. Returns the new map and the delivered snapshot
(`none` when the callback is not invoked). -/
def handleDeviceAdded (m : List (String × ServiceInstance))
    (d : DeviceNotification) :
    List (String × ServiceInstance) × Option (List ServiceInstance) :=
  match lookupDevice m d.id with
  | some _ => (m, none)
  | none =>
    let device := getDeviceFromProperties d.properties
    let m2 := m ++ [(d.id, device)]
    (m2, some (m2.map Prod.snd))

/-- `handleDeviceUpdated`: after the settling delay, if the device
identifier is not yet in the map, build the record from the properties,
insert it, and invoke the callback with `Object.values` of the map;
otherwise do nothing. The body is that of `handleDeviceAdded` except for
the log line. -/
def handleDeviceUpdated (m : List (String × ServiceInstance))
    (d : DeviceNotification) :
    List (String × ServiceInstance) × Option (List ServiceInstance) :=
  match lookupDevice m d.id with
  | some _ => (m, none)
  | none =>
    let device := getDeviceFromProperties d.properties
    let m2 := m ++ [(d.id, device)]
    (m2, some (m2.map Prod.snd))

/-- `stopListeningForDevices`: when a watcher is active, stop it, null
the handle, clear the deduplication map and return `true`; otherwise
return `false` with the state untouched. -/
def stopListeningForDevices (s : WatcherState) : Bool × WatcherState :=
  if s.watcherActive then (true, ⟨false, []⟩) else (false, s)

/-- `startListeningForDevicesAsync`: the method first nulls
`this.DeviceWatcher` unconditionally, then guards on `!this.DeviceWatcher`
— a guard that is therefore always taken — creates and starts a new
watcher and resolves `true`; the `false` path sits in the dead `else` of
that guard. The deduplication map is not cleared. The
`shouldListenForUpdates` argument only selects which event handlers are
registered (see `processEvent`). -/
def startListeningForDevicesAsync (s : WatcherState)
    (shouldListenForUpdates : Bool) : Bool × WatcherState :=
  let s1 : WatcherState := { s with watcherActive := false }
  if s1.watcherActive then (false, s1)
  else (true, { s1 with watcherActive := true })

/-- Platform watcher events of one listening session. -/
inductive WatcherEvent where
  | added : DeviceNotification → WatcherEvent
  | updated : DeviceNotification → WatcherEvent
  | enumerationCompleted : WatcherEvent

/-- Dispatch of one platform event in a session started with
`shouldListenForUpdates`: a stopped watcher raises no events (the
platform contract of `DeviceWatcher.stop`); the added handler is always
registered; the updated handler is registered only when
`shouldListenForUpdates` is true; the enumeration-completed handler
calls `stopListeningForDevices` when `shouldListenForUpdates` is false.
Returns the new state and the list of callback deliveries. -/
def processEvent (shouldListenForUpdates : Bool) (st : WatcherState)
    (e : WatcherEvent) : WatcherState × List (List ServiceInstance) :=
  if st.watcherActive = false then (st, [])
  else
    match e with
    | .added d =>
      let p := handleDeviceAdded st.discoveredDevicesMap d
      ({ st with discoveredDevicesMap := p.1 }, p.2.toList)
    | .updated d =>
      if shouldListenForUpdates then
        let p := handleDeviceUpdated st.discoveredDevicesMap d
        ({ st with discoveredDevicesMap := p.1 }, p.2.toList)
      else (st, [])
    | .enumerationCompleted =>
      if shouldListenForUpdates then (st, [])
      else ((stopListeningForDevices st).2, [])

/-- Process a sequence of platform events, accumulating the callback
deliveries in order. -/
def processEvents (shouldListenForUpdates : Bool) (st : WatcherState) :
    List WatcherEvent → WatcherState × List (List ServiceInstance)
  | [] => (st, [])
  | e :: es =>
    let p := processEvent shouldListenForUpdates st e
    let q := processEvents shouldListenForUpdates p.1 es
    (q.1, p.2 ++ q.2)

/-- A bag carrying only the single IPv4 address of claim C1's first
example. -/
def bagV4 : PropertyBag := { ipAddresses := some ["192.168.1.5"] }

/-- A bag carrying only the single IPv6 address of claim C1's second
example. -/
def bagV6 : PropertyBag := { ipAddresses := some ["fe80::1"] }

/-- A bag carrying the two-address list of claim C1's third example. -/
def bagBoth : PropertyBag := { ipAddresses := some ["10.0.0.1", "fe80::2"] }

/-- A bag whose address-list property is present but empty. -/
def bagEmptyList : PropertyBag := { ipAddresses := some [] }

/-- A bag whose two addresses both match the IPv4 pattern. -/
def c9Bag : PropertyBag := { ipAddresses := some ["10.0.0.1", "192.168.0.1"] }

/-- A bag with three addresses: two non-matching entries followed by an
IPv4-shaped entry at index 2, which the code ignores. -/
def c9WitnessBag : PropertyBag :=
  { ipAddresses := some ["fe80::1", "fe80::2", "10.0.0.1"] }

/-- Full characterization of `getDeviceFromProperties`: each simple key is
copied unchanged, and the convenience address fields are computed from
the first two entries of the address list exactly as the source's
assignment sequence leaves them. -/
theorem getDevice_spec (bag : PropertyBag) :
    getDeviceFromProperties bag =
      { hostName := bag.hostName
        serviceName := bag.serviceName
        instanceName := bag.instanceName
        ipAddresses := bag.ipAddresses
        ipv4Address := match bag.ipAddresses with
          | some (a0 :: _) => if ipv4PatternTest a0 then some a0 else none
          | _ => none
        ipv6Address := match bag.ipAddresses with
          | some (_ :: a1 :: _) => some a1
          | some [a0] => if ipv4PatternTest a0 then none else some a0
          | _ => none
        portNumber := bag.portNumber
        textAttributes := bag.textAttributes } := by
  rcases bag with ⟨h, sn, inm, ip, pn, ta⟩
  cases h <;> cases sn <;> cases inm <;> cases pn <;> cases ta <;>
    rcases ip with _ | ⟨_ | ⟨a0, _ | ⟨a1, r⟩⟩⟩ <;>
    simp only [getDeviceFromProperties, applyHostName, applyServiceName,
      applyInstanceName, applyIpAddress, applyPortNumber, applyTextAttributes] <;>
    first
      | rfl
      | (cases hb : ipv4PatternTest a0 <;> simp only [hb, if_true, if_false,
          Bool.false_eq_true, ite_true, ite_false])

/-- Claim C1: when the address-list property is present and non-empty,
the record's `ipAddresses` is that list; entry 0 goes to `ipv4Address`
when it matches the IPv4 pattern and to `ipv6Address` otherwise; and a
second entry, when present, ends up in `ipv6Address` unconditionally. -/
theorem dnssd_address_classification :
    ∀ (bag : PropertyBag) (a : String) (rest : List String),
      bag.ipAddresses = some (a :: rest) →
      (getDeviceFromProperties bag).ipAddresses = some (a :: rest) ∧
      (getDeviceFromProperties bag).ipv4Address =
        (if ipv4PatternTest a then some a else none) ∧
      (getDeviceFromProperties bag).ipv6Address =
        (match rest with
          | [] => if ipv4PatternTest a then none else some a
          | a1 :: _ => some a1) := by
  intro bag a rest h
  rw [getDevice_spec]
  cases rest <;> simp [h]

/-- Witness for claim C1: the three concrete examples of the claim,
obtained by instantiating the theorem. -/
theorem dnssd_address_classification_witness :
    (getDeviceFromProperties bagV4).ipv4Address = some "192.168.1.5" ∧
    (getDeviceFromProperties bagV4).ipv6Address = none ∧
    (getDeviceFromProperties bagV6).ipv6Address = some "fe80::1" ∧
    (getDeviceFromProperties bagV6).ipv4Address = none ∧
    (getDeviceFromProperties bagBoth).ipv4Address = some "10.0.0.1" ∧
    (getDeviceFromProperties bagBoth).ipv6Address = some "fe80::2" := by
  have h1 := dnssd_address_classification bagV4 "192.168.1.5" [] rfl
  have h2 := dnssd_address_classification bagV6 "fe80::1" [] rfl
  have h3 := dnssd_address_classification bagBoth "10.0.0.1" ["fe80::2"] rfl
  exact ⟨h1.2.1.trans (by decide), h1.2.2.trans (by decide),
    h2.2.2.trans (by decide), h2.2.1.trans (by decide),
    h3.2.1.trans (by decide), h3.2.2.trans (by decide)⟩

/-- Claim C4: a platform failure during the one-shot enumeration yields
the empty list (the operation is a total function into lists, so it
never rejects). -/
theorem dnssd_findAll_error_yields_empty :
    ∀ err : String, findAllDevicesAsync (Except.error err) = [] :=
  fun _ => rfl

/-- Claim C6: each of the six well-known keys, when present in the bag,
is copied unchanged into the corresponding record field, and an absent
key leaves the field unset (stated as equality of the optional
values). -/
theorem dnssd_property_mapping_faithful :
    ∀ bag : PropertyBag,
      (getDeviceFromProperties bag).hostName = bag.hostName ∧
      (getDeviceFromProperties bag).serviceName = bag.serviceName ∧
      (getDeviceFromProperties bag).instanceName = bag.instanceName ∧
      (getDeviceFromProperties bag).ipAddresses = bag.ipAddresses ∧
      (getDeviceFromProperties bag).portNumber = bag.portNumber ∧
      (getDeviceFromProperties bag).textAttributes = bag.textAttributes := by
  intro bag
  rw [getDevice_spec]
  exact ⟨rfl, rfl, rfl, rfl, rfl, rfl⟩

/-- Claim C10: an address-list property present with the empty list sets
`ipAddresses` to the empty list and leaves both convenience fields
unset. -/
theorem dnssd_empty_address_list :
    ∀ bag : PropertyBag, bag.ipAddresses = some [] →
      (getDeviceFromProperties bag).ipAddresses = some [] ∧
      (getDeviceFromProperties bag).ipv4Address = none ∧
      (getDeviceFromProperties bag).ipv6Address = none := by
  intro bag h
  rw [getDevice_spec]
  simp [h]

/-- Witness for claim C10 at the concrete empty-list bag. -/
theorem dnssd_empty_address_list_witness :
    (getDeviceFromProperties bagEmptyList).ipAddresses = some [] ∧
    (getDeviceFromProperties bagEmptyList).ipv4Address = none ∧
    (getDeviceFromProperties bagEmptyList).ipv6Address = none :=
  dnssd_empty_address_list bagEmptyList rfl

/-- Claim C9 is false on the code: in a list whose entries all match the
IPv4 pattern there is no entry failing the pattern test, yet the record's
`ipv6Address` is set (to entry 1, assigned unconditionally), so it does
not equal the first non-matching entry. -/
theorem dnssd_convenience_fields_counterexample :
    (getDeviceFromProperties c9Bag).ipAddresses =
      some ["10.0.0.1", "192.168.0.1"] ∧
    ["10.0.0.1", "192.168.0.1"].find? (fun s => !ipv4PatternTest s) = none ∧
    (getDeviceFromProperties c9Bag).ipv6Address = some "192.168.0.1" := by
  decide

/-- Claim C9 as amended: the convenience fields are computed from entries
0 and 1 only. Entry 0 is assigned to `ipv4Address` when it matches the
pattern and to `ipv6Address` otherwise; entry 1, when present, is
assigned to `ipv6Address` without being tested (overwriting); entries
beyond index 1 never affect the fields. -/
theorem dnssd_convenience_fields_amended :
    ∀ (bag : PropertyBag) (l : List String), bag.ipAddresses = some l →
      (getDeviceFromProperties bag).ipv4Address =
        (match l[0]? with
          | some a0 => if ipv4PatternTest a0 then some a0 else none
          | none => none) ∧
      (getDeviceFromProperties bag).ipv6Address =
        (match l[1]? with
          | some a1 => some a1
          | none =>
            match l[0]? with
            | some a0 => if ipv4PatternTest a0 then none else some a0
            | none => none) := by
  intro bag l h
  rw [getDevice_spec]
  rcases l with _ | ⟨a0, _ | ⟨a1, r⟩⟩ <;> simp [h]

/-- Witness for the amended claim C9: with an IPv4-shaped entry at index
2 the record still has no `ipv4Address`, and `ipv6Address` is entry 1. -/
theorem dnssd_convenience_fields_amended_witness :
    (getDeviceFromProperties c9WitnessBag).ipv4Address = none ∧
    (getDeviceFromProperties c9WitnessBag).ipv6Address = some "fe80::2" := by
  have h := dnssd_convenience_fields_amended c9WitnessBag
    ["fe80::1", "fe80::2", "10.0.0.1"] rfl
  exact ⟨h.1.trans (by decide), h.2.trans (by decide)⟩

/-- Lookup on a cons cell. -/
theorem lookupDevice_cons (x : String × ServiceInstance)
    (xs : List (String × ServiceInstance)) (id : String) :
    lookupDevice (x :: xs) id =
      if x.1 == id then some x.2 else lookupDevice xs id := by
  cases hx : x.1 == id <;> simp [lookupDevice, List.find?_cons, hx]

/-- Appending a binding for an identifier absent from the map makes it
the one found by lookup. -/
theorem lookupDevice_append_self (m : List (String × ServiceInstance))
    (id : String) (dev : ServiceInstance) (h : lookupDevice m id = none) :
    lookupDevice (m ++ [(id, dev)]) id = some dev := by
  induction m with
  | nil => simp [lookupDevice]
  | cons x xs ih =>
    rw [List.cons_append, lookupDevice_cons]
    rw [lookupDevice_cons] at h
    cases hx : x.1 == id <;> simp [hx] at h ⊢
    exact ih h

/-- Appending a binding for a different identifier preserves a failed
lookup. -/
theorem lookupDevice_append_ne (m : List (String × ServiceInstance))
    (id qid : String) (dev : ServiceInstance)
    (h : lookupDevice m qid = none) (hne : (id == qid) = false) :
    lookupDevice (m ++ [(id, dev)]) qid = none := by
  induction m with
  | nil => simp [lookupDevice, List.find?_cons, hne]
  | cons x xs ih =>
    rw [List.cons_append, lookupDevice_cons]
    rw [lookupDevice_cons] at h
    cases hx : x.1 == qid <;> simp [hx] at h ⊢
    exact ih h

/-- Identifier count on a cons cell. -/
theorem countId_cons (x : String × ServiceInstance)
    (xs : List (String × ServiceInstance)) (id : String) :
    countId (x :: xs) id = (if x.1 == id then 1 else 0) + countId xs id := by
  cases hx : x.1 == id <;> simp [countId, List.filter_cons, hx, Nat.add_comm]

/-- Identifier count distributes over append. -/
theorem countId_append (m1 m2 : List (String × ServiceInstance)) (id : String) :
    countId (m1 ++ m2) id = countId m1 id + countId m2 id := by
  simp [countId, List.filter_append]

/-- A failed lookup means no entry carries the identifier. -/
theorem countId_eq_zero (m : List (String × ServiceInstance)) (id : String)
    (h : lookupDevice m id = none) : countId m id = 0 := by
  induction m with
  | nil => rfl
  | cons x xs ih =>
    rw [lookupDevice_cons] at h
    rw [countId_cons]
    cases hx : x.1 == id <;> simp [hx] at h ⊢
    exact ih h

/-- A singleton map counts its own identifier once. -/
theorem countId_singleton_self (id : String) (dev : ServiceInstance) :
    countId [(id, dev)] id = 1 := by
  simp [countId]

/-- A singleton map counts a different identifier zero times. -/
theorem countId_singleton_ne (id qid : String) (dev : ServiceInstance)
    (hne : (id == qid) = false) : countId [(id, dev)] qid = 0 := by
  simp [countId, hne]

/-- An added notification for a fresh identifier inserts the mapped
record and delivers one snapshot. -/
theorem processEvent_added_fresh (lfu : Bool)
    (m : List (String × ServiceInstance)) (d : DeviceNotification)
    (h : lookupDevice m d.id = none) :
    processEvent lfu ⟨true, m⟩ (.added d) =
      (⟨true, m ++ [(d.id, getDeviceFromProperties d.properties)]⟩,
        [(m ++ [(d.id, getDeviceFromProperties d.properties)]).map Prod.snd]) := by
  simp [processEvent, handleDeviceAdded, h]

/-- An added notification for an identifier already in the map changes
nothing and delivers nothing. -/
theorem processEvent_added_dup (lfu : Bool)
    (m : List (String × ServiceInstance)) (d : DeviceNotification)
    (dev : ServiceInstance) (h : lookupDevice m d.id = some dev) :
    processEvent lfu ⟨true, m⟩ (.added d) = (⟨true, m⟩, []) := by
  simp [processEvent, handleDeviceAdded, h]

/-- An updated notification for a fresh identifier, with updates enabled,
inserts the mapped record and delivers one snapshot. -/
theorem processEvent_updated_fresh (m : List (String × ServiceInstance))
    (d : DeviceNotification) (h : lookupDevice m d.id = none) :
    processEvent true ⟨true, m⟩ (.updated d) =
      (⟨true, m ++ [(d.id, getDeviceFromProperties d.properties)]⟩,
        [(m ++ [(d.id, getDeviceFromProperties d.properties)]).map Prod.snd]) := by
  simp [processEvent, handleDeviceUpdated, h]

/-- A stopped watcher raises no events: processing any event sequence
from an inactive state changes nothing and delivers nothing. -/
theorem processEvents_inactive (lfu : Bool) (st : WatcherState)
    (es : List WatcherEvent) (h : st.watcherActive = false) :
    processEvents lfu st es = (st, []) := by
  induction es with
  | nil => rfl
  | cons e es ih => simp [processEvents, processEvent, h, ih]

/-- Claim C2 fails on the code: `startListeningForDevicesAsync` nulls the
watcher handle before testing it, so the promise resolves `true` and a
fresh watcher is started from every state — including states in which a
watcher is already running, where the claim requires `false`. -/
theorem dnssd_start_always_resolves_true :
    ∀ (s : WatcherState) (shouldListenForUpdates : Bool),
      (startListeningForDevicesAsync s shouldListenForUpdates).1 = true ∧
      (startListeningForDevicesAsync s shouldListenForUpdates).2.watcherActive
        = true :=
  fun _ _ => ⟨rfl, rfl⟩

/-- Claim C5: stopping with no active watcher returns `false` and leaves
the state unchanged; stopping with an active watcher returns `true`,
empties the deduplication map and deactivates the watcher. -/
theorem dnssd_stop_idempotent :
    ∀ s : WatcherState,
      (s.watcherActive = false → stopListeningForDevices s = (false, s)) ∧
      (s.watcherActive = true →
        (stopListeningForDevices s).1 = true ∧
        (stopListeningForDevices s).2.discoveredDevicesMap = [] ∧
        (stopListeningForDevices s).2.watcherActive = false) := by
  refine fun s => ⟨fun h => ?_, fun h => ?_⟩ <;>
    simp [stopListeningForDevices, h]

/-- Witness for claim C5 at an inactive state and at an active state
holding one entry. -/
theorem dnssd_stop_idempotent_witness :
    stopListeningForDevices ⟨false, [("id0", {})]⟩ =
      (false, ⟨false, [("id0", {})]⟩) ∧
    ((stopListeningForDevices ⟨true, [("id0", {})]⟩).1 = true ∧
      (stopListeningForDevices ⟨true, [("id0", {})]⟩).2.discoveredDevicesMap
        = [] ∧
      (stopListeningForDevices ⟨true, [("id0", {})]⟩).2.watcherActive
        = false) :=
  ⟨(dnssd_stop_idempotent ⟨false, [("id0", {})]⟩).1 rfl,
    (dnssd_stop_idempotent ⟨true, [("id0", {})]⟩).2 rfl⟩

/-- Claim C7: the added handler and the updated handler compute the same
function on the deduplication map and produce the same callback
deliveries for every notification. -/
theorem dnssd_added_updated_handlers_equal :
    ∀ (m : List (String × ServiceInstance)) (d : DeviceNotification),
      handleDeviceAdded m d = handleDeviceUpdated m d :=
  fun _ _ => rfl

/-- Claim C3: two added notifications with the same identifier leave
exactly one entry for it in the map and trigger exactly one delivery;
with updates enabled, a subsequent updated notification for a distinct
fresh identifier adds a second entry and one further delivery. -/
theorem dnssd_dedup_invariant :
    ∀ (m : List (String × ServiceInstance)) (d d2 d3 : DeviceNotification),
      d2.id = d.id → (d.id == d3.id) = false →
      lookupDevice m d.id = none → lookupDevice m d3.id = none →
      (∀ lfu : Bool,
        countId (processEvents lfu ⟨true, m⟩
          [.added d, .added d2]).1.discoveredDevicesMap d.id = 1 ∧
        (processEvents lfu ⟨true, m⟩ [.added d, .added d2]).2.length = 1) ∧
      (countId (processEvents true ⟨true, m⟩
          [.added d, .added d2, .updated d3]).1.discoveredDevicesMap d.id
          = 1 ∧
        countId (processEvents true ⟨true, m⟩
          [.added d, .added d2, .updated d3]).1.discoveredDevicesMap d3.id
          = 1 ∧
        (processEvents true ⟨true, m⟩
          [.added d, .added d2, .updated d3]).2.length = 2) := by
  intro m d d2 d3 h2 h3 hm hm3
  have hl2 : lookupDevice
      (m ++ [(d.id, getDeviceFromProperties d.properties)]) d2.id =
      some (getDeviceFromProperties d.properties) := by
    rw [h2]
    exact lookupDevice_append_self m d.id _ hm
  have hl3 : lookupDevice
      (m ++ [(d.id, getDeviceFromProperties d.properties)]) d3.id = none :=
    lookupDevice_append_ne m d.id d3.id _ hm3 h3
  have h3s : (d3.id == d.id) = false := by
    have := beq_eq_false_iff_ne.mp h3
    exact beq_eq_false_iff_ne.mpr (Ne.symm this)
  constructor
  · intro lfu
    rw [show ([.added d, .added d2] : List WatcherEvent) =
      .added d :: .added d2 :: [] from rfl]
    simp only [processEvents, processEvent_added_fresh lfu m d hm,
      processEvent_added_dup lfu _ d2 _ hl2]
    constructor
    · rw [countId_append, countId_eq_zero m d.id hm, countId_singleton_self]
    · simp
  · rw [show ([.added d, .added d2, .updated d3] : List WatcherEvent) =
      .added d :: .added d2 :: .updated d3 :: [] from rfl]
    simp only [processEvents, processEvent_added_fresh true m d hm,
      processEvent_added_dup true _ d2 _ hl2,
      processEvent_updated_fresh _ d3 hl3]
    refine ⟨?_, ?_, ?_⟩
    · rw [countId_append, countId_append, countId_eq_zero m d.id hm,
        countId_singleton_self, countId_singleton_ne d3.id d.id _ h3s]
    · rw [countId_append, countId_append, countId_eq_zero m d3.id hm3,
        countId_singleton_ne d.id d3.id _ h3, countId_singleton_self]
    · simp

/-- Witness for claim C3: a concrete session from the empty map with two
added notifications for one identifier and an updated notification for a
second identifier. -/
theorem dnssd_dedup_invariant_witness :
    countId (processEvents false ⟨true, []⟩
      [.added ⟨"idA", {}⟩, .added ⟨"idA", {}⟩]).1.discoveredDevicesMap "idA"
      = 1 ∧
    (processEvents false ⟨true, []⟩
      [.added ⟨"idA", {}⟩, .added ⟨"idA", {}⟩]).2.length = 1 ∧
    countId (processEvents true ⟨true, []⟩
      [.added ⟨"idA", {}⟩, .added ⟨"idA", {}⟩,
        .updated ⟨"idB", {}⟩]).1.discoveredDevicesMap "idB" = 1 ∧
    (processEvents true ⟨true, []⟩
      [.added ⟨"idA", {}⟩, .added ⟨"idA", {}⟩,
        .updated ⟨"idB", {}⟩]).2.length = 2 := by
  have h := dnssd_dedup_invariant [] ⟨"idA", {}⟩ ⟨"idA", {}⟩ ⟨"idB", {}⟩
    rfl (by decide) rfl rfl
  exact ⟨(h.1 false).1, (h.1 false).2, h.2.2.1, h.2.2.2⟩

/-- Claim C8: in a session with `listenForUpdates = false`, once the
platform signals enumeration completed, the watcher is stopped with the
map cleared, and (a stopped watcher raising no further events) the
session stays stopped with no further deliveries, whatever events would
follow. -/
theorem dnssd_no_updates_after_enumeration :
    ∀ (st : WatcherState) (es : List WatcherEvent),
      st.watcherActive = true →
      processEvents false st (.enumerationCompleted :: es) =
        (⟨false, []⟩, []) := by
  intro st es h
  simp [processEvents, processEvent, h, stopListeningForDevices,
    processEvents_inactive]

/-- Witness for claim C8: after enumeration completes, a pending updated
notification produces no delivery and the session ends stopped and
empty. -/
theorem dnssd_no_updates_after_enumeration_witness :
    processEvents false ⟨true, []⟩
      [.enumerationCompleted, .updated ⟨"idC", {}⟩, .added ⟨"idD", {}⟩] =
      (⟨false, []⟩, []) :=
  dnssd_no_updates_after_enumeration ⟨true, []⟩
    [.updated ⟨"idC", {}⟩, .added ⟨"idD", {}⟩] rfl
